import Mathlib

/-!
Verification of the `mr_transfer` interactive scan-transfer script.

The repository ships two near-duplicate revisions of the same script,
`main.py` at the repository root and `src/main.py`.  The definitions below
are a shallow embedding of the script's pure logic; interactive input is
modelled as an explicit list of scripted operator answers, the remote
session and the local filesystem as oracles passed in explicitly.
Where the two revisions differ (the bypass keyword in `pi_study_match`
and the retry loop in `ssh_connect`), the embedding follows the
`src/main.py` revision, which the specification describes; differences
are noted at the relevant definition.

Python string primitives are re-implemented on `List Char` (rather than
through the core `String` functions, which use well-founded recursion)
so that every definition evaluates by kernel reduction; each is a direct
model of the CPython behaviour on ASCII input.
-/

/-! ### Python string primitives used by the script -/

/-- Python `str.endswith`: suffix test on the character sequence. -/
def py_endswith (s suf : String) : Bool :=
  suf.data.isSuffixOf s.data

/-- ASCII lowercasing of one character, as Python `str.lower` does on
ASCII letters. -/
def py_char_lower (c : Char) : Char :=
  if 65 ≤ c.toNat ∧ c.toNat ≤ 90 then Char.ofNat (c.toNat + 32) else c

/-- Python `str.lower` (ASCII fragment). -/
def py_lower (s : String) : String :=
  ⟨s.data.map py_char_lower⟩

/-- Python `s[:-n]`: drop the last `n` characters. -/
def py_drop_last (n : Nat) (s : String) : String :=
  ⟨s.data.take (s.data.length - n)⟩

/-- Python `str.rstrip()`: drop trailing whitespace. -/
def py_rstrip (s : String) : String :=
  ⟨(s.data.reverse.dropWhile Char.isWhitespace).reverse⟩

/-- Python `str.strip()`: drop leading and trailing whitespace. -/
def py_strip (s : String) : String :=
  ⟨((s.data.dropWhile Char.isWhitespace).reverse.dropWhile Char.isWhitespace).reverse⟩

/-- Python `x or default` on strings: the empty string is falsy. -/
def py_or (x cur : String) : String :=
  if x = "" then cur else x

/-- Worker for `py_split_ws`: split on whitespace runs, discarding empty
pieces; `acc` holds the current field reversed. -/
def splitWsAux : List Char → List Char → List String
  | [], acc => if acc.isEmpty then [] else [⟨acc.reverse⟩]
  | c :: cs, acc =>
    if c.isWhitespace then
      if acc.isEmpty then splitWsAux cs [] else ⟨acc.reverse⟩ :: splitWsAux cs []
    else splitWsAux cs (c :: acc)

/-- Python `str.split()` with no argument. -/
def py_split_ws (s : String) : List String :=
  splitWsAux s.data []

/-- Worker for `py_split_char`: split at every occurrence of `sep`,
keeping empty pieces (Python `str.split(sep)`). -/
def splitCharAux (sep : Char) : List Char → List Char → List String
  | [], acc => [⟨acc.reverse⟩]
  | c :: cs, acc =>
    if c = sep then ⟨acc.reverse⟩ :: splitCharAux sep cs [] else splitCharAux sep cs (c :: acc)

/-- Python `str.split(sep)` for a one-character separator. -/
def py_split_char (sep : Char) (s : String) : List String :=
  splitCharAux sep s.data []

/-- Digit run of a Python integer literal (single underscores allowed
between digits), accumulating the value. -/
def pyDigitsAux : Nat → List Char → Option Nat
  | acc, [] => some acc
  | acc, '_' :: c :: cs =>
    if c.isDigit then pyDigitsAux (acc * 10 + (c.toNat - 48)) cs else none
  | _, ['_'] => none
  | acc, c :: cs =>
    if c.isDigit then pyDigitsAux (acc * 10 + (c.toNat - 48)) cs else none

/-- Nonempty digit run; must start with a digit, not an underscore. -/
def pyDigits : List Char → Option Nat
  | [] => none
  | '_' :: _ => none
  | c :: cs => if c.isDigit then pyDigitsAux (c.toNat - 48) cs else none

/-- Python `int(str)`: optional surrounding whitespace, optional sign,
then a digit run.  `none` models the `ValueError` raised on any other
input. -/
def pyInt? (s : String) : Option Int :=
  match (py_strip s).data with
  | '+' :: rest => (pyDigits rest).map (fun n => (n : Int))
  | '-' :: rest => (pyDigits rest).map (fun n => -(n : Int))
  | rest => (pyDigits rest).map (fun n => (n : Int))

/-- Python list indexing `l[k]` for `int` k: nonnegative indices are
direct, negative indices count from the end; `none` models `IndexError`. -/
def pyIndex (l : List String) (k : Int) : Option String :=
  if 0 ≤ k then l[k.toNat]?
  else if 0 ≤ (l.length : Int) + k then l[((l.length : Int) + k).toNat]?
  else none

/-! ### StudyRegistry: `pi_dict` and `pi_study_match` -/

/-- The static owner-to-studies registry (`pi_dict` in both revisions),
in source order. -/
def pi_dict : List (String × List String) :=
  [("cosgrove", ["bava_ptsd_aud", "fmozat_dex", "mukappa_aud", "pbr_app311_aud", "pbr_oud"]),
   ("davis", ["ekap_ptsd", "fpeb_bpd", "pbr_ed"]),
   ("esterlis", ["app311_fpeb", "app311_ket", "fpeb_abp_mdd", "sdm8_sdc", "sv2a_aging_mdd"]),
   ("zakiniaeiz", ["flb_aud"])]

/-- Result of `pi_study_match`: a registry match, a manual bypass pair,
or `sys.exit(1)` on no match. -/
inductive MatchResult
  | matched (pi study : String)
  | manual (pi study : String)
  | exit1
  deriving DecidableEq

/-- The registry-lookup part of `pi_study_match` (`src/main.py` lines
48-59): strip a trailing `"_mr"`, then scan `pi_dict` in order for the
first owner whose study list contains the stripped name. -/
def pi_study_match_core (study : String) : MatchResult :=
  let study := if py_endswith study "_mr" then py_drop_last 3 study else study
  match pi_dict.find? (fun kv => kv.2.contains study) with
  | some kv => .matched kv.1 study
  | none => .exit1

/-- `pi_study_match` from `src/main.py`: the bypass keyword check comes
first and returns the two manually prompted values (`manualStudy` is the
first prompt, `manualPi` the second) unchecked; otherwise the registry
lookup runs.  The root-revision `main.py` lacks the bypass branch. -/
def pi_study_match (manualStudy manualPi study : String) : MatchResult :=
  if py_lower study == "bypass" then .manual manualPi manualStudy
  else pi_study_match_core study

/-! ### `ask_confirmation` -/

/-- The `while choice not in ("y", "n")` re-prompt loop of
`ask_confirmation`.  `choice` is the answer currently being tested
(already lowercased only if it was the first answer); the list holds the
remaining scripted operator answers, consumed verbatim — the source does
NOT lowercase re-prompted answers.  `none` models the loop still waiting
for input after the script is exhausted. -/
def ask_confirmation_loop : String → List String → Option (Bool × List String)
  | choice, [] =>
    if choice = "y" then some (true, [])
    else if choice = "n" then some (false, [])
    else none
  | choice, c :: rest =>
    if choice = "y" then some (true, c :: rest)
    else if choice = "n" then some (false, c :: rest)
    else ask_confirmation_loop c rest

/-- `ask_confirmation`: the first answer is lowercased, then the loop
runs; returns the boolean decision and the unconsumed script. -/
def ask_confirmation : List String → Option (Bool × List String)
  | [] => none
  | first :: rest => ask_confirmation_loop (py_lower first) rest

/-! ### ScanLocator: candidate menu and numeric selection -/

/-- Outcome of the scan-selection try-block (`src/main.py` lines
193-205): `exit1` models the `except` handler's `sys.exit(1)`, `picked`
carries `scan_to_transfer` and `mr_date`. -/
inductive SelResult
  | exit1
  | picked (token mrDate : String)
  deriving DecidableEq

/-- The candidate menu built by the `enumerate(scans_list, start=0)`
print loop: for each line its index, `scan.split()[0]` and
`scan.split()[4]`.  `none` models the `IndexError` raised on a line with
fewer than five whitespace fields. -/
def offered_go (i : Nat) : List String → Option (List (Nat × String × String))
  | [] => some []
  | scan :: rest =>
    match (py_split_ws scan)[0]?, (py_split_ws scan)[4]?, offered_go (i + 1) rest with
    | some tok, some disp, some tl => some ((i, tok, disp) :: tl)
    | _, _, _ => none

/-- The full menu, 0-indexed. -/
def offeredCandidates (scans : List String) : Option (List (Nat × String × String)) :=
  offered_go 0 scans

/-- Indexing-and-parsing tail of the selection step: index `scans_list`
(Python indexing, so negative indices count from the end), take the
first whitespace field as `scan_to_transfer` and its second underscore
segment as `mr_date`; a raised `IndexError` becomes `sys.exit(1)`. -/
def selection_index (scans : List String) (k : Int) : SelResult :=
  match pyIndex scans k with
  | none => .exit1
  | some line =>
    match (py_split_ws line)[0]? with
    | none => .exit1
    | some tok =>
      match (py_split_char '_' tok)[1]? with
      | none => .exit1
      | some d => .picked tok d

/-- The selection step: print the menu, parse the operator's single
answer with `int(...)`, then index and parse; every raised exception is
caught by the surrounding handler and becomes `sys.exit(1)`. -/
def selection_step (scans : List String) (idxInput : String) : SelResult :=
  match offeredCandidates scans with
  | none => .exit1
  | some _ =>
    match pyInt? idxInput with
    | none => .exit1
    | some k => selection_index scans k

/-- Two well-formed discovery lines (token, four further fields). -/
def scans_pair : List String :=
  ["mrrc_20240102_p1 s1 x y first", "mrrc_20240103_p2 s2 x y second"]

/-- One well-formed discovery line. -/
def scans_single : List String := ["hwp_20240105_q7 a b c d"]

/-! ### DestinationResolver: the destination confirm/repair loop -/

/-- The per-iteration normalization (`src/main.py` lines 219-220): append
the modality suffix when absent. -/
def normalize_study (s : String) : String :=
  if py_endswith s "_mr" then s else s ++ "_mr"

/-- The f-string `f"/data8/data/{study}/{mr_date}_{subject}/3d_dicom"`
(`study` already normalized). -/
def pet_dir_path (study date subject : String) : String :=
  "/data8/data/" ++ study ++ "/" ++ date ++ "_" ++ subject ++ "/3d_dicom"

/-- Destination computation from the raw fields: normalization followed
by the path f-string, as one loop iteration computes it. -/
def dest_path (study date subject : String) : String :=
  pet_dir_path (normalize_study study) date subject

/-- The three mutable fields of the destination loop. -/
structure DestState where
  study : String
  date : String
  subject : String
  deriving DecidableEq

/-- Result of one iteration of the `while True` destination loop.
`next` carries the updated fields, whether the iteration asked the
operator anything, and the unconsumed operator script; `accept` is
`break` (with whether `mkdir` ran); `stepExit0`/`stepExit1` are the two
`sys.exit` calls; `stepBlocked` models waiting on operator input beyond
the script. -/
inductive StepRes
  | next (st : DestState) (asked : Bool) (inputs : List String)
  | accept (st : DestState) (path : String) (made : Bool) (inputs : List String)
  | stepExit0
  | stepExit1
  | stepBlocked
  deriving DecidableEq

/-- One iteration of the destination loop (`src/main.py` lines 218-265).
`fs path = some n` models `pet_dir.exists()` with `n` entries matching
the `[MS]R*` glob; `fs path = none` models a missing path.  `mkOk`
models whether `pet_dir.mkdir(parents=True, exist_ok=True)` succeeds.
Note the exists-with-`file_count ≤ 1` branch: the source has no `else`
for `if file_count > 1`, so that case falls through to the next
iteration with nothing asked and nothing changed. -/
def dest_loop_step (fs : String → Option Nat) (mkOk : String → Bool)
    (st : DestState) (inputs : List String) : StepRes :=
  let study := normalize_study st.study
  let pet_dir := pet_dir_path study st.date st.subject
  match fs pet_dir with
  | some file_count =>
    if file_count > 1 then
      match ask_confirmation inputs with
      | none => .stepBlocked
      | some (true, rest) => .accept ⟨study, st.date, st.subject⟩ pet_dir false rest
      | some (false, _) => .stepExit0
    else .next ⟨study, st.date, st.subject⟩ false inputs
  | none =>
    match ask_confirmation inputs with
    | none => .stepBlocked
    | some (true, rest) =>
      if mkOk pet_dir then .accept ⟨study, st.date, st.subject⟩ pet_dir true rest
      else .stepExit1
    | some (false, rest) =>
      match rest with
      | s :: d :: u :: rest' =>
        .next ⟨py_or s study, py_or d st.date, py_or u st.subject⟩ true rest'
      | _ => .stepBlocked

/-- Overall outcome of the destination loop, run with explicit fuel:
`fuelOut` means the loop was still iterating when the fuel ran out. -/
inductive DestRes
  | accepted (st : DestState) (path : String) (made : Bool) (rest : List String)
  | exit0
  | exit1
  | blocked
  | fuelOut
  deriving DecidableEq

/-- Iterate `dest_loop_step` until `break`, an exit, or fuel exhaustion. -/
def dest_loop_run (fs : String → Option Nat) (mkOk : String → Bool) :
    DestState → List String → Nat → DestRes
  | _, _, 0 => .fuelOut
  | st, inputs, fuel + 1 =>
    match dest_loop_step fs mkOk st inputs with
    | .next st' _ inputs' => dest_loop_run fs mkOk st' inputs' fuel
    | .accept st' path made rest => .accepted st' path made rest
    | .stepExit0 => .exit0
    | .stepExit1 => .exit1
    | .stepBlocked => .blocked

/-- A filesystem on which the computed destination exists and holds
exactly one entry matching the `[MS]R*` glob (the EmptyOrSparse state). -/
def fs_sparse : String → Option Nat :=
  fun p => if p = "/data8/data/pbr_oud_mr/20240115_S001/3d_dicom" then some 1 else none

/-- The (already normalized) loop state hitting `fs_sparse`. -/
def st_sparse : DestState := ⟨"pbr_oud_mr", "20240115", "S001"⟩

/-! ### RemoteSession: the `ssh_connect` credential loop -/

/-- Outcome of one `client.connect` attempt: success, an
`AuthenticationException`, a `TimeoutError`, or any other exception. -/
inductive ConnAttempt
  | success
  | authFail
  | timeoutErr
  | otherErr
  deriving DecidableEq

/-- Result of running the credential loop against a finite script of
attempt outcomes: `connected`/`exit1` with the number of password
prompts issued; `looping` means the loop is back at a fresh password
prompt with the attempt script exhausted; `blockedRetry` means it is
waiting for a retry answer beyond the script. -/
inductive ConnResult
  | connected (prompts : Nat)
  | exit1 (prompts : Nat)
  | looping (prompts : Nat)
  | blockedRetry (prompts : Nat)
  deriving DecidableEq

/-- The `while True` loop of `ssh_connect` in `src/main.py` (lines
107-122): each iteration prompts for the password, attempts to connect;
an `AuthenticationException` or `TimeoutError` prints a message and
loops back to a fresh prompt; any other exception asks whether to retry
and exits with status 1 unless the stripped, lowercased answer is
exactly `"y"`.  (The root-revision `main.py` instead exits on the first
authentication failure.) -/
def ssh_connect_run : List ConnAttempt → List String → Nat → ConnResult
  | [], _, prompts => .looping prompts
  | .success :: _, _, prompts => .connected (prompts + 1)
  | .authFail :: rest, retries, prompts => ssh_connect_run rest retries (prompts + 1)
  | .timeoutErr :: rest, retries, prompts => ssh_connect_run rest retries (prompts + 1)
  | .otherErr :: rest, retries, prompts =>
    match retries with
    | [] => .blockedRetry (prompts + 1)
    | r :: retries' =>
      if py_lower (py_strip r) = "y" then ssh_connect_run rest retries' (prompts + 1)
      else .exit1 (prompts + 1)

/-! ### The main workflow after connection -/

/-- Externally visible events of a `main` run: a command executed on the
remote session, the session close, a local directory creation, and the
final `rsync` invocation. -/
inductive Ev
  | remoteCmd (cmd : String)
  | closeSession
  | mkdirEv (path : String)
  | rsyncEv (src dst : String)
  deriving DecidableEq

/-- Whether an event is a remote command on the session. -/
def Ev.isRemote : Ev → Bool
  | .remoteCmd _ => true
  | _ => false

/-- Whether an event is the session close. -/
def Ev.isClose : Ev → Bool
  | .closeSession => true
  | _ => false

/-- Whether an event is a local directory creation. -/
def Ev.isMkdir : Ev → Bool
  | .mkdirEv _ => true
  | _ => false

/-- The oracles a `main` run consumes after the connection phase:
discovery output, the operator's selection answer, the `readlink`
output, the local filesystem, `mkdir` success, and the scripted
operator answers for the destination loop. -/
structure MainOracles where
  scansOut : List String
  selInput : String
  readlinkOut : List String
  fs : String → Option Nat
  mkdirOk : String → Bool
  loopInputs : List String

/-- Result of a `main` run. -/
inductive MainRes
  | exited (code : Nat)
  | finished
  | blocked
  | fuelOut
  deriving DecidableEq

/-- The composite discovery command (`src/main.py` line 186). -/
def discovery_cmd (scanner pi : String) : String :=
  "/home/rtc29/Documents/codes/FindMyStudy.sh " ++ scanner ++ " " ++ pi ++
    " | grep -i \"" ++ scanner ++ "_[[:alnum:]]*_[[:alnum:]]*\""

/-- The path-resolution command (`src/main.py` line 209). -/
def readlink_cmd (scanner tok : String) : String :=
  "readlink -f /data1/" ++ scanner ++ "_transfer/" ++ tok

/-- The `main` workflow from the discovery command onwards
(`src/main.py` lines 184-281), producing the run result and the ordered
event trace: discovery, empty-result check, selection, path resolution
(`readlink` output line 0, `rstrip`ped), session close, the destination
loop, and the final `rsync`. -/
def main_run (subject study pi scanner : String) (o : MainOracles) (fuel : Nat) :
    MainRes × List Ev :=
  if o.scansOut.isEmpty then (.exited 1, [Ev.remoteCmd (discovery_cmd scanner pi)])
  else
    match selection_step o.scansOut o.selInput with
    | .exit1 => (.exited 1, [Ev.remoteCmd (discovery_cmd scanner pi)])
    | .picked tok mrDate =>
      match o.readlinkOut[0]? with
      | none =>
        (.exited 1,
         [Ev.remoteCmd (discovery_cmd scanner pi), Ev.remoteCmd (readlink_cmd scanner tok)])
      | some line =>
        match dest_loop_run o.fs o.mkdirOk ⟨study, mrDate, subject⟩ o.loopInputs fuel with
        | .accepted _ path made _ =>
          (.finished,
           [Ev.remoteCmd (discovery_cmd scanner pi), Ev.remoteCmd (readlink_cmd scanner tok),
            Ev.closeSession] ++
           (if made then [Ev.mkdirEv path] else []) ++
           [Ev.rsyncEv ("petlab@shred.med.yale.edu:" ++ py_rstrip line ++ "/*") path])
        | .exit0 =>
          (.exited 0,
           [Ev.remoteCmd (discovery_cmd scanner pi), Ev.remoteCmd (readlink_cmd scanner tok),
            Ev.closeSession])
        | .exit1 =>
          (.exited 1,
           [Ev.remoteCmd (discovery_cmd scanner pi), Ev.remoteCmd (readlink_cmd scanner tok),
            Ev.closeSession])
        | .blocked =>
          (.blocked,
           [Ev.remoteCmd (discovery_cmd scanner pi), Ev.remoteCmd (readlink_cmd scanner tok),
            Ev.closeSession])
        | .fuelOut =>
          (.fuelOut,
           [Ev.remoteCmd (discovery_cmd scanner pi), Ev.remoteCmd (readlink_cmd scanner tok),
            Ev.closeSession])

/-- Oracle with empty discovery output (C8 witness scenario). -/
def o_empty : MainOracles :=
  ⟨[], "0", [], fun _ => none, fun _ => true, []⟩

/-- Oracle with empty discovery output, different remaining fields (C9
counterexample scenario). -/
def o_c9 : MainOracles :=
  ⟨[], "1", [], fun _ => none, fun _ => false, []⟩

/-- Oracle for a run that reaches the destination loop and accepts with
a directory creation (C9 witness scenario). -/
def o_full : MainOracles :=
  ⟨["mrrc_20240102_p1 s1 x y first"], "0", ["/data1/mrrc_transfer/x "],
   fun _ => none, fun _ => true, ["y"]⟩

-- ===== further definitions are inserted above this marker =====

/-! ### Helper lemmas -/

lemma isPrefixOf_self_append (a b : List Char) : a.isPrefixOf (a ++ b) = true := by
  induction a with
  | nil => simp
  | cons c cs ih => simp [List.isPrefixOf_cons₂, ih]

lemma py_endswith_append (s t : String) : py_endswith (s ++ t) t = true := by
  show t.data.isSuffixOf (s.data ++ t.data) = true
  unfold List.isSuffixOf
  rw [List.reverse_append]
  exact isPrefixOf_self_append _ _

lemma pi_study_match_not_bypass (ms mp s : String)
    (h : (py_lower s == "bypass") = false) :
    pi_study_match ms mp s = pi_study_match_core s := by
  simp [pi_study_match, h]

/-- Every registered study is not the bypass keyword (with or without the
suffix) and resolves, stripped, to its registered owner. -/
lemma registry_facts :
    ∀ kv ∈ pi_dict, ∀ s ∈ kv.2,
      (py_lower s == "bypass") = false ∧
      (py_lower (s ++ "_mr") == "bypass") = false ∧
      pi_study_match_core s = .matched kv.1 s ∧
      pi_study_match_core (s ++ "_mr") = .matched kv.1 s := by
  decide

/-! ### Claim theorems -/

/-- Claim C2: for every study identifier registered in `pi_dict`,
`pi_study_match` on the bare identifier, and on the identifier with the
`"_mr"` modality suffix appended, returns the owner under which it is
registered together with the suffix-stripped identifier — whatever the
manual-bypass prompt answers would have been. -/
theorem claim_C2_registered_resolution (ms mp : String)
    (kv : String × List String) (hkv : kv ∈ pi_dict)
    (s : String) (hs : s ∈ kv.2) :
    pi_study_match ms mp s = .matched kv.1 s ∧
    pi_study_match ms mp (s ++ "_mr") = .matched kv.1 s := by
  obtain ⟨h1, h2, h3, h4⟩ := registry_facts kv hkv s hs
  rw [pi_study_match_not_bypass _ _ _ h1, pi_study_match_not_bypass _ _ _ h2]
  exact ⟨h3, h4⟩

/-- Witness for C2 at the registered study `"pbr_oud"` of owner
`"cosgrove"`. -/
theorem claim_C2_witness :
    pi_study_match "man_s" "man_p" "pbr_oud" = .matched "cosgrove" "pbr_oud" ∧
    pi_study_match "man_s" "man_p" ("pbr_oud" ++ "_mr") = .matched "cosgrove" "pbr_oud" :=
  claim_C2_registered_resolution "man_s" "man_p"
    ("cosgrove", ["bava_ptsd_aud", "fmozat_dex", "mukappa_aud", "pbr_app311_aud", "pbr_oud"])
    (by decide) "pbr_oud" (by decide)

/-- Claim C3: any input that case-insensitively equals the bypass keyword
makes `pi_study_match` skip the registry entirely and return the two
manually prompted values unchecked (modelled from the `src/main.py`
revision, which contains the bypass branch). -/
theorem claim_C3_bypass (ms mp s : String) (h : py_lower s = "bypass") :
    pi_study_match ms mp s = .manual mp ms := by
  simp [pi_study_match, h]

/-- Witness for C3 at the mixed-case input `"ByPaSs"`. -/
theorem claim_C3_witness :
    pi_study_match "manual_study" "manual_pi" "ByPaSs" = .manual "manual_pi" "manual_study" :=
  claim_C3_bypass "manual_study" "manual_pi" "ByPaSs" (by decide)

/-- Claim C10: `ask_confirmation` accepts exactly `"y"` (returning true)
and `"n"` (returning false); the first answer is lowercased so uppercase
`"Y"`/`"N"` are accepted at the initial prompt, but re-prompted answers
are compared without lowercasing, so an uppercase answer at any re-prompt
is treated as invalid and re-prompted again; the loop never returns
without an accepted answer. -/
theorem claim_C10_confirmation :
    (∀ r, ask_confirmation ("Y" :: r) = some (true, r)) ∧
    (∀ r, ask_confirmation ("N" :: r) = some (false, r)) ∧
    (∀ r, ask_confirmation ("y" :: r) = some (true, r)) ∧
    (∀ r, ask_confirmation ("n" :: r) = some (false, r)) ∧
    (∀ c r, c ≠ "y" → c ≠ "n" → (∀ x ∈ r, x ≠ "y" ∧ x ≠ "n") →
      ask_confirmation_loop c r = none) ∧
    ask_confirmation ["x", "Y", "y"] = some (true, []) ∧
    ask_confirmation ["x", "Y"] = none := by
  refine ⟨?_, ?_, ?_, ?_, ?_, by decide, by decide⟩
  · intro r; cases r <;> rfl
  · intro r; cases r <;> rfl
  · intro r; cases r <;> rfl
  · intro r; cases r <;> rfl
  · intro c r
    induction r generalizing c with
    | nil =>
      intro hc hn _
      simp [ask_confirmation_loop, hc, hn]
    | cons x xs ih =>
      intro hc hn hall
      have hx := hall x (List.mem_cons_self x xs)
      show ask_confirmation_loop c (x :: xs) = none
      rw [ask_confirmation_loop, if_neg hc, if_neg hn]
      exact ih x hx.1 hx.2 (fun z hz => hall z (List.mem_cons_of_mem x hz))

/-- Witness for C10: with an invalid first answer and an invalid
re-prompt answer the loop is still waiting for input. -/
theorem claim_C10_witness : ask_confirmation_loop "x" ["z"] = none :=
  claim_C10_confirmation.2.2.2.2.1 "x" ["z"] (by decide) (by decide) (by decide)

/-! ### ScanLocator lemmas -/

lemma offered_go_length (scans : List String) :
    ∀ i off, offered_go i scans = some off → off.length = scans.length := by
  induction scans with
  | nil =>
    intro i off h
    have h' : some ([] : List (Nat × String × String)) = some off := h
    obtain rfl : ([] : List (Nat × String × String)) = off := Option.some.inj h'
    rfl
  | cons a l ih =>
    intro i off h
    unfold offered_go at h
    cases h0 : (py_split_ws a)[0]? with
    | none => rw [h0] at h; exact Option.noConfusion h
    | some tok =>
      cases h4 : (py_split_ws a)[4]? with
      | none => rw [h0, h4] at h; exact Option.noConfusion h
      | some disp =>
        cases hg : offered_go (i + 1) l with
        | none => rw [h0, h4, hg] at h; exact Option.noConfusion h
        | some tl =>
          rw [h0, h4, hg] at h
          have h' : some ((i, tok, disp) :: tl) = some off := h
          obtain rfl : (i, tok, disp) :: tl = off := Option.some.inj h'
          simp [ih (i + 1) tl hg]

lemma offered_go_get (scans : List String) :
    ∀ i off, offered_go i scans = some off →
      ∀ k line, scans[k]? = some line →
        ∃ tok disp, (py_split_ws line)[0]? = some tok ∧
          (py_split_ws line)[4]? = some disp ∧
          off[k]? = some (i + k, tok, disp) := by
  induction scans with
  | nil => intro i off h k line hk; simp at hk
  | cons a l ih =>
    intro i off h k line hk
    unfold offered_go at h
    cases h0 : (py_split_ws a)[0]? with
    | none => rw [h0] at h; exact Option.noConfusion h
    | some tok =>
      cases h4 : (py_split_ws a)[4]? with
      | none => rw [h0, h4] at h; exact Option.noConfusion h
      | some disp =>
        cases hg : offered_go (i + 1) l with
        | none => rw [h0, h4, hg] at h; exact Option.noConfusion h
        | some tl =>
          rw [h0, h4, hg] at h
          have h' : some ((i, tok, disp) :: tl) = some off := h
          obtain rfl : (i, tok, disp) :: tl = off := Option.some.inj h'
          cases k with
          | zero =>
            rw [List.getElem?_cons_zero] at hk
            obtain rfl : a = line := Option.some.inj hk
            exact ⟨tok, disp, h0, h4, by simp⟩
          | succ k' =>
            rw [List.getElem?_cons_succ] at hk
            obtain ⟨tok', disp', ht, hd, ho⟩ := ih (i + 1) tl hg k' line hk
            refine ⟨tok', disp', ht, hd, ?_⟩
            rw [List.getElem?_cons_succ, ho]
            have : i + (k' + 1) = i + 1 + k' := by omega
            rw [this]

lemma pyIndex_natCast (l : List String) (k : Nat) : pyIndex l (k : Int) = l[k]? := by
  unfold pyIndex
  rw [if_pos (Int.natCast_nonneg k)]
  simp

/-! ### Claims C4 and C5 -/

/-- Claim C4: with `N` well-formed discovery lines, exactly `N`
candidates are offered, 0-indexed, and for every `k < N` an input
parsing to `k` selects the first whitespace field of the `k`-th line as
the transfer token and the second underscore segment of that token as
the acquisition date. -/
theorem claim_C4_selection (scans : List String)
    (offered : List (Nat × String × String))
    (hoff : offeredCandidates scans = some offered)
    (k : Nat) (line tok date input : String)
    (hline : scans[k]? = some line)
    (htok : (py_split_ws line)[0]? = some tok)
    (hdate : (py_split_char '_' tok)[1]? = some date)
    (hinput : pyInt? input = some (k : Int)) :
    offered.length = scans.length ∧
    (∃ disp, offered[k]? = some (k, tok, disp)) ∧
    selection_step scans input = .picked tok date := by
  refine ⟨offered_go_length scans 0 offered hoff, ?_, ?_⟩
  · obtain ⟨tok', disp, ht', hd', ho⟩ := offered_go_get scans 0 offered hoff k line hline
    rw [htok] at ht'
    obtain rfl : tok = tok' := Option.some.inj ht'
    exact ⟨disp, by simpa using ho⟩
  · unfold selection_step
    rw [hoff, hinput]
    show selection_index scans ((k : Nat) : Int) = .picked tok date
    unfold selection_index
    rw [pyIndex_natCast, hline]
    show (match (py_split_ws line)[0]? with
      | none => SelResult.exit1
      | some t =>
        match (py_split_char '_' t)[1]? with
        | none => SelResult.exit1
        | some d => SelResult.picked t d) = SelResult.picked tok date
    rw [htok]
    show (match (py_split_char '_' tok)[1]? with
      | none => SelResult.exit1
      | some d => SelResult.picked tok d) = SelResult.picked tok date
    rw [hdate]

/-- Witness for C4: two candidates, index `1` selects the second line's
token and its embedded date. -/
theorem claim_C4_witness :
    ([(0, "mrrc_20240102_p1", "first"), (1, "mrrc_20240103_p2", "second")]
        : List (Nat × String × String)).length = scans_pair.length ∧
    (∃ disp, ([(0, "mrrc_20240102_p1", "first"), (1, "mrrc_20240103_p2", "second")]
        : List (Nat × String × String))[1]? = some (1, "mrrc_20240103_p2", disp)) ∧
    selection_step scans_pair "1" = .picked "mrrc_20240103_p2" "20240103" :=
  claim_C4_selection scans_pair
    [(0, "mrrc_20240102_p1", "first"), (1, "mrrc_20240103_p2", "second")]
    (by decide) 1 "mrrc_20240103_p2 s2 x y second" "mrrc_20240103_p2" "20240103" "1"
    (by decide) (by decide) (by decide) (by decide)

/-- Counterexample to claim C5 as stated: the input `"-1"` is an integer
outside `0 ≤ k < N`, yet it selects a candidate (Python negative
indexing counts from the end) instead of exiting with status 1. -/
theorem claim_C5_counterexample :
    selection_step scans_single "-1" = .picked "hwp_20240105_q7" "20240105" ∧
    selection_step scans_single "-1" ≠ .exit1 := by
  decide

/-- Claim C5 (amended): a non-integer selection input is fatal (exit 1,
no re-prompt), and an integer `k` with `k ≥ N` or `k < -N` is fatal; but
integers in `[-N, -1]` select a candidate from the end, so only indices
outside `[-N, N)` never select. -/
theorem claim_C5_amended (scans : List String) (input : String) :
    (pyInt? input = none → selection_step scans input = .exit1) ∧
    (∀ k : Int, pyInt? input = some k →
      ((scans.length : Int) ≤ k ∨ k < -(scans.length : Int)) →
      selection_step scans input = .exit1) := by
  constructor
  · intro h
    unfold selection_step
    cases offeredCandidates scans with
    | none => rfl
    | some l => rw [h]
  · intro k hk hout
    unfold selection_step
    cases offeredCandidates scans with
    | none => rfl
    | some l =>
      rw [hk]
      have hnone : pyIndex scans k = none := by
        unfold pyIndex
        rcases hout with h | h
        · split
          · apply List.getElem?_eq_none
            omega
          · exfalso; omega
        · split
          · exfalso; omega
          · split
            · exfalso; omega
            · rfl
      show selection_index scans k = .exit1
      unfold selection_index
      rw [hnone]

/-- Witness for the amended C5: index `7` with a single candidate is
fatal. -/
theorem claim_C5_witness : selection_step scans_single "7" = .exit1 :=
  (claim_C5_amended scans_single "7").2 7 (by decide) (by decide)

/-! ### DestinationResolver lemmas -/

lemma normalize_study_idem (s : String) :
    normalize_study (normalize_study s) = normalize_study s := by
  simp only [normalize_study]
  by_cases h : py_endswith s "_mr" = true
  · simp [h]
  · simp [h, py_endswith_append]

lemma sparse_step (mkOk : String → Bool) (inputs : List String) :
    dest_loop_step fs_sparse mkOk st_sparse inputs = .next st_sparse false inputs := rfl

lemma sparse_run (fuel : Nat) : ∀ (inputs : List String) (mkOk : String → Bool),
    dest_loop_run fs_sparse mkOk st_sparse inputs fuel = .fuelOut := by
  induction fuel with
  | zero => intro inputs mkOk; rfl
  | succ n ih =>
    intro inputs mkOk
    show (match dest_loop_step fs_sparse mkOk st_sparse inputs with
      | .next st' _ inputs' => dest_loop_run fs_sparse mkOk st' inputs' n
      | .accept st' path made rest => DestRes.accepted st' path made rest
      | .stepExit0 => DestRes.exit0
      | .stepExit1 => DestRes.exit1
      | .stepBlocked => DestRes.blocked) = DestRes.fuelOut
    rw [sparse_step]
    exact ih inputs mkOk

/-! ### Claims C1 and C6 -/

/-- Claim C1 (documenting the code bug): in the EmptyOrSparse state —
destination exists with at most one `[MS]R*` entry, here exactly one —
the loop body takes the fall-through branch: it asks the operator
nothing (`asked = false`), changes no field, and loops again, so the run
never terminates and never reaches any confirmation, contradicting the
claimed "is this correct" confirmation with decline routing to Editing. -/
theorem claim_C1_sparse_silent_loop :
    (∀ (mkOk : String → Bool) (inputs : List String),
      dest_loop_step fs_sparse mkOk st_sparse inputs = .next st_sparse false inputs) ∧
    (∀ (mkOk : String → Bool) (inputs : List String) (fuel : Nat),
      dest_loop_run fs_sparse mkOk st_sparse inputs fuel = .fuelOut) :=
  ⟨fun mkOk inputs => sparse_step mkOk inputs,
   fun mkOk inputs fuel => sparse_run fuel inputs mkOk⟩

/-- Claim C6: destination computation is a pure function of the three
fields (recomputation yields an identical string), suffix normalization
is idempotent and leaves an already-suffixed study unchanged, the
computed path has exactly the documented shape, and the spec's example
evaluates as stated. -/
theorem claim_C6_dest_path :
    (∀ study date subject, dest_path study date subject = dest_path study date subject) ∧
    (∀ study, py_endswith study "_mr" = true → normalize_study study = study) ∧
    (∀ study, normalize_study (normalize_study study) = normalize_study study) ∧
    (∀ study date subject,
      dest_path (normalize_study study) date subject = dest_path study date subject) ∧
    dest_path "pbr_oud" "20240115" "S001" = "/data8/data/pbr_oud_mr/20240115_S001/3d_dicom" := by
  refine ⟨fun _ _ _ => rfl, ?_, fun s => normalize_study_idem s, ?_, by decide⟩
  · intro s h
    simp [normalize_study, h]
  · intro s d u
    unfold dest_path
    rw [normalize_study_idem]

/-- Witness for C6: a study already carrying the suffix is unchanged. -/
theorem claim_C6_witness : normalize_study "flb_aud_mr" = "flb_aud_mr" :=
  claim_C6_dest_path.2.1 "flb_aud_mr" (by decide)

/-! ### RemoteSession lemma -/

lemma ssh_connect_authfails (n : Nat) : ∀ (p : Nat) (retries : List String),
    ssh_connect_run (List.replicate n .authFail) retries p = .looping (p + n) := by
  induction n with
  | zero => intro p retries; rfl
  | succ m ih =>
    intro p retries
    show ssh_connect_run (.authFail :: List.replicate m .authFail) retries p
      = .looping (p + (m + 1))
    have step : ssh_connect_run (.authFail :: List.replicate m .authFail) retries p
        = ssh_connect_run (List.replicate m .authFail) retries (p + 1) := rfl
    rw [step, ih (p + 1) retries]
    have : p + 1 + m = p + (m + 1) := by omega
    rw [this]

/-! ### Claims C7, C8, C9 -/

/-- Claim C7: the `src/main.py` connect loop never terminates on
credential rejections — after any number `n` of consecutive
authentication failures it has issued `n` fresh credential prompts and
is back at another prompt (`looping`), never connected, never exited. -/
theorem claim_C7_auth_retry (n : Nat) (retries : List String) :
    ssh_connect_run (List.replicate n .authFail) retries 0 = .looping n := by
  have h := ssh_connect_authfails n 0 retries
  simpa using h

/-- Claim C8: with an empty discovery result the workflow exits with
status 1 having issued only the discovery command — no path-resolution
command and no transfer event. -/
theorem claim_C8_empty_discovery (subject study pi scanner : String)
    (o : MainOracles) (fuel : Nat) (h : o.scansOut = []) :
    main_run subject study pi scanner o fuel =
      (.exited 1, [Ev.remoteCmd (discovery_cmd scanner pi)]) := by
  unfold main_run
  rw [h]
  rfl

/-- Witness for C8 on a concrete empty-discovery oracle. -/
theorem claim_C8_witness :
    main_run "s1" "pbr_oud" "cosgrove" "mrrc" o_empty 3 =
      (.exited 1, [Ev.remoteCmd (discovery_cmd "mrrc" "cosgrove")]) :=
  claim_C8_empty_discovery "s1" "pbr_oud" "cosgrove" "mrrc" o_empty 3 rfl

/-- Counterexample to claim C9 as stated: a run with empty discovery
output performs exactly one remote command, not two, before exiting. -/
theorem claim_C9_counterexample :
    (main_run "s2" "flb_aud" "zakiniaeiz" "hwp" o_c9 2).2 =
      [Ev.remoteCmd (discovery_cmd "hwp" "zakiniaeiz")] ∧
    (main_run "s2" "flb_aud" "zakiniaeiz" "hwp" o_c9 2).2.countP Ev.isRemote ≠ 2 := by
  constructor
  · rfl
  · decide

/-- Claim C9 (amended): in every run that reaches the destination phase
(i.e. whose trace contains the session close) exactly two remote
commands are issued; in every run no directory creation precedes the
session close, and no remote command occurs at or after the close. -/
theorem claim_C9_amended (subject study pi scanner : String)
    (o : MainOracles) (fuel : Nat) :
    (Ev.closeSession ∈ (main_run subject study pi scanner o fuel).2 →
      (main_run subject study pi scanner o fuel).2.countP Ev.isRemote = 2) ∧
    ((main_run subject study pi scanner o fuel).2.takeWhile
        (fun e => !(Ev.isClose e))).countP Ev.isMkdir = 0 ∧
    ((main_run subject study pi scanner o fuel).2.dropWhile
        (fun e => !(Ev.isClose e))).countP Ev.isRemote = 0 := by
  unfold main_run
  split
  all_goals try split
  all_goals try split
  all_goals try split
  all_goals try split
  all_goals refine ⟨fun h => ?_, ?_, ?_⟩
  all_goals simp_all [Ev.isRemote, Ev.isClose, Ev.isMkdir, List.countP_cons, List.countP_nil,
    List.takeWhile_cons, List.takeWhile_nil, List.dropWhile_cons, List.dropWhile_nil]

/-- Witness for the amended C9 on a run that reaches the destination
phase and creates the directory. -/
theorem claim_C9_witness :
    (main_run "s1" "pbr_oud" "cosgrove" "mrrc" o_full 4).2.countP Ev.isRemote = 2 :=
  (claim_C9_amended "s1" "pbr_oud" "cosgrove" "mrrc" o_full 4).1 (by decide)
